import Mathlib

/-!
Verification of the filesystem support layer of fcp (src/filesystem.rs):
the path semi-canonicalization algorithm and the POSIX file-type classifier.

Paths are modelled at the level of parsed components, matching the data
model of the module: a path is an ordered sequence of components (root
marker, current-dir, parent-dir, named segment, and the non-unix drive
marker that the code treats as unreachable).  The operating system is
modelled as an environment providing the two fallible primitives the core
calls into: full-existence canonicalization and non-following metadata
query.  Fallible results are Outcome values: ok, a recoverable error
carrying a message, or a panic (the translation of the unreachable macro).
-/

namespace Fcp

/-- A parsed path component, after the normalization performed by the
component iterator of the standard library. -/
inductive Component where
  | rootDir
  | curDir
  | parentDir
  | normal (s : String)
  | prefixC (s : String)
deriving DecidableEq, Repr

/-- A path as an ordered sequence of components. -/
abbrev PathC := List Component

/-- Rendering of a single component, as the display implementation shows it. -/
def Component.displayC : Component → String
  | .rootDir => "/"
  | .curDir => "."
  | .parentDir => ".."
  | .normal s => s
  | .prefixC s => s

/-- Rendering of a whole path, components joined by separators, with an
absolute path starting at the root marker. -/
def display : PathC → String
  | [] => ""
  | .rootDir :: rest => "/" ++ String.intercalate "/" (rest.map Component.displayC)
  | cs => String.intercalate "/" (cs.map Component.displayC)

/-- The error type of the module: a single struct holding only a message. -/
structure Error where
  message : String
deriving DecidableEq, Repr

/-- Error construction, as the constructor function of the module. -/
def Error.new (message : String) : Error := ⟨message⟩

/-- The process-wide root path constant. -/
def rootPath : PathC := [Component.rootDir]

/-- Parent of a path: the path without its final component; none when the
path is empty or terminates in a root or drive marker. -/
def parent (p : PathC) : Option PathC :=
  match p.getLast? with
  | none => none
  | some .rootDir => none
  | some (.prefixC _) => none
  | some _ => some p.dropLast

/-- The pop operation on an owned path buffer: truncate to the parent when
one exists, otherwise leave the path unchanged. -/
def popPath (p : PathC) : PathC :=
  match parent p with
  | some q => q
  | none => p

/-- Type-discriminating metadata returned by the non-following query: the
seven mutually exclusive POSIX type tests. -/
structure Metadata where
  isFile : Bool
  isDir : Bool
  isSymlink : Bool
  isFifo : Bool
  isSocket : Bool
  isCharDevice : Bool
  isBlockDevice : Bool
deriving DecidableEq, Repr

/-- The operating-system environment: the two fallible primitives the core
calls into.  Raw failures carry the message of the underlying cause. -/
structure Env where
  canonicalizeRaw : PathC → Except String PathC
  symlinkMetadataRaw : PathC → Except String Metadata

/-- The wrapped full-existence canonicalization: on failure the error
message is the displayed argument path followed by the underlying cause. -/
def canonicalize (env : Env) (p : PathC) : Except Error PathC :=
  match env.canonicalizeRaw p with
  | .ok q => .ok q
  | .error e => .error (Error.new (display p ++ ": " ++ e))

/-- The wrapped non-following metadata query, with the same error wrapping. -/
def symlink_metadata (env : Env) (p : PathC) : Except Error Metadata :=
  match env.symlinkMetadataRaw p with
  | .ok m => .ok m
  | .error e => .error (Error.new (display p ++ ": " ++ e))

/-- Result of a call that can return a value, fail with a recoverable
error, or abort the process with a message. -/
inductive Outcome (α : Type) where
  | ok : α → Outcome α
  | err : Error → Outcome α
  | panic : String → Outcome α
deriving DecidableEq, Repr

/-- The classification produced by the prober.  Directory, Fifo,
CharacterDevice and BlockDevice carry the probed metadata; Regular,
Symlink and Socket carry no payload. -/
inductive FileType where
  | regular
  | directory (m : Metadata)
  | symlink
  | fifo (m : Metadata)
  | socket
  | characterDevice (m : Metadata)
  | blockDevice (m : Metadata)
deriving DecidableEq, Repr

/-- The POSIX file-type classifier: query metadata without following a
trailing symlink, then test in order regular file, directory, symlink,
FIFO, socket, character device, block device; an eighth type aborts. -/
def file_type (env : Env) (path : PathC) : Outcome FileType :=
  match symlink_metadata env path with
  | .error e => .err e
  | .ok metadata =>
    if metadata.isFile then .ok .regular
    else if metadata.isDir then .ok (.directory metadata)
    else if metadata.isSymlink then .ok .symlink
    else if metadata.isFifo then .ok (.fifo metadata)
    else if metadata.isSocket then .ok .socket
    else if metadata.isCharDevice then .ok (.characterDevice metadata)
    else if metadata.isBlockDevice then .ok (.blockDevice metadata)
    else .panic (display path ++ ": file appears to exist but is an unknown type")

/-- The internal-consistency error of the resolver, tagged with the
displayed input path. -/
def unknown_error (path : PathC) : Error :=
  Error.new (display path ++ ": an unknown error occurred while processing this path")

/-- The error produced when the input path has zero components. -/
def emptyPathError : Error := Error.new "Empty file path provided as an argument"

/-- The path resolver: split the input into its final component and the
preceding components, canonicalize the latter when non-empty, then
dispatch on the final component and on whether the preceding part was
non-empty. -/
def semicanonicalize (env : Env) (path current_dir : PathC) : Outcome PathC :=
  match path.getLast? with
  | none => .err emptyPathError
  | some last =>
    let pfx0 := path.dropLast
    let pfxExists := pfx0 ≠ []
    match (if pfxExists then canonicalize env pfx0 else Except.ok pfx0) with
    | .error e => .err e
    | .ok pfx =>
      match last with
      | .curDir => .ok (if pfxExists then pfx else current_dir)
      | .normal filename =>
        .ok (if pfxExists then pfx ++ [Component.normal filename]
             else current_dir ++ [Component.normal filename])
      | .parentDir =>
        if pfxExists then .ok (popPath pfx)
        else if current_dir = rootPath then .ok current_dir
        else
          match parent current_dir with
          | some p => .ok p
          | none => .err (unknown_error path)
      | .rootDir =>
        if pfxExists then .err (unknown_error path) else .ok rootPath
      | .prefixC _ => .panic "fcp does not support non-unix systems"

/-- Whether a component may follow a leading root marker in a normalized
path: only named segments and parent-dir tokens can. -/
def okComp : Component → Bool
  | Component.normal _ => true
  | Component.parentDir => true
  | _ => false

/-- A well-formed absolute path: the root marker first, followed only by
named segments and parent-dir tokens (the shapes the component iterator
can produce after a leading root). -/
def isValidAbs : PathC → Bool
  | Component.rootDir :: rest => rest.all okComp
  | _ => false

/-- A concrete environment whose canonicalization is the identity and
whose metadata query always fails. -/
def envIdOk : Env := ⟨fun p => Except.ok p, fun _ => Except.error "no metadata"⟩

/-- A concrete environment whose primitives always fail with the cause
message boom. -/
def envBoom : Env := ⟨fun _ => Except.error "boom", fun _ => Except.error "boom"⟩

/-- A concrete environment whose canonicalization fails with a cause whose
text happens to coincide with the internal-consistency message. -/
def envUnknownMsg : Env :=
  ⟨fun _ => Except.error "an unknown error occurred while processing this path",
   fun _ => Except.error "no metadata"⟩

/-- A concrete environment whose canonicalization is the identity and
whose metadata query always returns the given metadata. -/
def envMeta (m : Metadata) : Env := ⟨fun p => Except.ok p, fun _ => Except.ok m⟩

/-- Metadata reporting a directory. -/
def mdDir : Metadata := ⟨false, true, false, false, false, false, false⟩

/-- Metadata on which all seven POSIX type tests fail. -/
def mdNone : Metadata := ⟨false, false, false, false, false, false, false⟩

theorem parent_isSome_of_validAbs (p : PathC) (h : isValidAbs p = true)
    (hne : p ≠ rootPath) : ∃ q, parent p = some q := by
  cases p with
  | nil => simp [isValidAbs] at h
  | cons hd tl =>
    cases hd with
    | rootDir =>
      cases tl with
      | nil => exact absurd rfl hne
      | cons a t =>
        rcases List.eq_nil_or_concat (a :: t) with h1 | ⟨L, b, hLb⟩
        · simp at h1
        · rw [hLb] at h ⊢
          have hb : okComp b = true := by
            have h2 := h
            simp [isValidAbs] at h2
            exact h2.2
          have hgl : (Component.rootDir :: (L ++ [b])).getLast? = some b := by
            rw [← List.cons_append]
            exact List.getLast?_concat _
          cases b with
          | normal s =>
            exact ⟨(Component.rootDir :: (L ++ [Component.normal s])).dropLast,
              by simp [parent, hgl]⟩
          | parentDir =>
            exact ⟨(Component.rootDir :: (L ++ [Component.parentDir])).dropLast,
              by simp [parent, hgl]⟩
          | rootDir => simp [okComp] at hb
          | curDir => simp [okComp] at hb
          | prefixC s => simp [okComp] at hb
    | curDir => simp [isValidAbs] at h
    | parentDir => simp [isValidAbs] at h
    | normal s => simp [isValidAbs] at h
    | prefixC s => simp [isValidAbs] at h

/-- Claim C7: for every input path with zero components, semicanonicalize
fails with the empty-path error, regardless of the current directory. -/
theorem c7_empty_path (env : Env) (current_dir : PathC) :
    semicanonicalize env [] current_dir = Outcome.err emptyPathError := rfl

/-- Claim C6: for every input path whose final component is the
current-dir token, semicanonicalize returns the current directory
unchanged when the preceding components are empty, and the resolved
preceding components unchanged when they are non-empty and canonicalize. -/
theorem c6_curdir_last (env : Env) (path current_dir : PathC)
    (hlast : path.getLast? = some Component.curDir) :
    (path.dropLast = [] → semicanonicalize env path current_dir = Outcome.ok current_dir) ∧
    (∀ c, path.dropLast ≠ [] → canonicalize env path.dropLast = Except.ok c →
      semicanonicalize env path current_dir = Outcome.ok c) := by
  constructor
  · intro hpe
    simp [semicanonicalize, hlast, hpe]
  · intro c hne hcan
    simp [semicanonicalize, hlast, hne, hcan]

/-- Claim C1: for every input path whose final component is a named
segment, semicanonicalize succeeds (given the preceding components
canonicalize) and appends the segment to the canonicalized preceding
components when they are non-empty, and to the current directory when
they are empty; no hypothesis about the segment itself is needed. -/
theorem c1_named_last (env : Env) (path current_dir : PathC) (n : String)
    (hlast : path.getLast? = some (Component.normal n)) :
    (path.dropLast = [] → semicanonicalize env path current_dir =
      Outcome.ok (current_dir ++ [Component.normal n])) ∧
    (∀ c, path.dropLast ≠ [] → canonicalize env path.dropLast = Except.ok c →
      semicanonicalize env path current_dir = Outcome.ok (c ++ [Component.normal n])) := by
  constructor
  · intro hpe
    simp [semicanonicalize, hlast, hpe]
  · intro c hne hcan
    simp [semicanonicalize, hlast, hne, hcan]

/-- Claim C5: for every input path whose final component is the root
marker, semicanonicalize returns the root path when the preceding
components are empty; when they are non-empty it never succeeds, and when
they canonicalize it fails with the internal-consistency error. -/
theorem c5_root_last (env : Env) (path current_dir : PathC)
    (hlast : path.getLast? = some Component.rootDir) :
    (path.dropLast = [] → semicanonicalize env path current_dir = Outcome.ok rootPath) ∧
    (path.dropLast ≠ [] →
      (∀ c, canonicalize env path.dropLast = Except.ok c →
        semicanonicalize env path current_dir = Outcome.err (unknown_error path)) ∧
      ∀ v, semicanonicalize env path current_dir ≠ Outcome.ok v) := by
  constructor
  · intro hpe
    simp [semicanonicalize, hlast, hpe]
  · intro hne
    constructor
    · intro c hcan
      simp [semicanonicalize, hlast, hne, hcan]
    · intro v
      cases hcan : canonicalize env path.dropLast with
      | ok c => simp [semicanonicalize, hlast, hne, hcan]
      | error e => simp [semicanonicalize, hlast, hne, hcan]

/-- Claim C3: for every input path whose final component is the
parent-dir token: with non-empty canonicalized preceding components the
result pops their final segment (a no-op at the root); with empty
preceding components the result is the current directory itself at the
root, its parent otherwise, and the internal-consistency error when the
current directory unexpectedly has no parent. -/
theorem c3_parentdir_last (env : Env) (path current_dir : PathC)
    (hlast : path.getLast? = some Component.parentDir) :
    (∀ c, path.dropLast ≠ [] → canonicalize env path.dropLast = Except.ok c →
      semicanonicalize env path current_dir = Outcome.ok (popPath c)) ∧
    popPath rootPath = rootPath ∧
    (path.dropLast = [] → current_dir = rootPath →
      semicanonicalize env path current_dir = Outcome.ok current_dir) ∧
    (path.dropLast = [] → current_dir ≠ rootPath →
      (∀ p, parent current_dir = some p →
        semicanonicalize env path current_dir = Outcome.ok p) ∧
      (parent current_dir = none →
        semicanonicalize env path current_dir = Outcome.err (unknown_error path))) := by
  refine ⟨?_, rfl, ?_, ?_⟩
  · intro c hne hcan
    simp [semicanonicalize, hlast, hne, hcan]
  · intro hpe hroot
    simp [semicanonicalize, hlast, hpe, hroot]
  · intro hpe hroot
    constructor
    · intro p hp
      simp [semicanonicalize, hlast, hpe, hroot, hp]
    · intro hp
      simp [semicanonicalize, hlast, hpe, hroot, hp]

/-- Claim C2: for every path on which the non-following metadata query
succeeds, file_type classifies by the ordered tests regular file,
directory, symlink, FIFO, socket, character device, block device; the
Directory, Fifo, CharacterDevice and BlockDevice variants carry exactly
the probed metadata while Regular, Symlink and Socket carry none, and an
entry whose metadata reports a symlink is classified Symlink. -/
theorem c2_classifier (env : Env) (p : PathC) (m : Metadata)
    (h : symlink_metadata env p = Except.ok m) :
    (m.isFile = true → file_type env p = Outcome.ok FileType.regular) ∧
    (m.isFile = false → m.isDir = true →
      file_type env p = Outcome.ok (FileType.directory m)) ∧
    (m.isFile = false → m.isDir = false → m.isSymlink = true →
      file_type env p = Outcome.ok FileType.symlink) ∧
    (m.isFile = false → m.isDir = false → m.isSymlink = false → m.isFifo = true →
      file_type env p = Outcome.ok (FileType.fifo m)) ∧
    (m.isFile = false → m.isDir = false → m.isSymlink = false → m.isFifo = false →
      m.isSocket = true → file_type env p = Outcome.ok FileType.socket) ∧
    (m.isFile = false → m.isDir = false → m.isSymlink = false → m.isFifo = false →
      m.isSocket = false → m.isCharDevice = true →
      file_type env p = Outcome.ok (FileType.characterDevice m)) ∧
    (m.isFile = false → m.isDir = false → m.isSymlink = false → m.isFifo = false →
      m.isSocket = false → m.isCharDevice = false → m.isBlockDevice = true →
      file_type env p = Outcome.ok (FileType.blockDevice m)) := by
  refine ⟨?_, ?_, ?_, ?_, ?_, ?_, ?_⟩ <;> intros <;> simp_all [file_type]

/-- Claim C8: when the metadata query succeeds but all seven POSIX type
tests fail, file_type aborts with a panic whose message includes the
displayed path, and never returns a recoverable error in that situation;
when at least one of the seven tests holds the abort branch is not taken
and a classification is returned. -/
theorem c8_eighth_type (env : Env) (p : PathC) (m : Metadata)
    (h : symlink_metadata env p = Except.ok m) :
    (m.isFile = false → m.isDir = false → m.isSymlink = false → m.isFifo = false →
      m.isSocket = false → m.isCharDevice = false → m.isBlockDevice = false →
      file_type env p =
        Outcome.panic (display p ++ ": file appears to exist but is an unknown type") ∧
      ∀ e, file_type env p ≠ Outcome.err e) ∧
    ((m.isFile || m.isDir || m.isSymlink || m.isFifo || m.isSocket ||
      m.isCharDevice || m.isBlockDevice) = true →
      ∃ t, file_type env p = Outcome.ok t) := by
  constructor
  · intro h1 h2 h3 h4 h5 h6 h7
    constructor
    · simp [file_type, h, h1, h2, h3, h4, h5, h6, h7]
    · intro e
      simp [file_type, h, h1, h2, h3, h4, h5, h6, h7]
  · intro hor
    obtain ⟨f, d, s, fi, so, cd, bd⟩ := m
    cases f <;> cases d <;> cases s <;> cases fi <;> cases so <;> cases cd <;> cases bd <;>
      simp_all [file_type]

/-- Claim C4, counterexample: when canonicalization of the non-empty
preceding components fails, the error message is built from those
preceding components, not from the original input path; here the input
a/b/c produces the error message a/b: boom, and the displayed original
input a/b/c does not occur in that message. -/
theorem c4_counterexample :
    semicanonicalize envBoom
        [Component.normal "a", Component.normal "b", Component.normal "c"] rootPath =
      Outcome.err (Error.new "a/b: boom") ∧
    display [Component.normal "a", Component.normal "b", Component.normal "c"] = "a/b/c" ∧
    ¬ ("a/b/c".toList <:+: "a/b: boom".toList) := by
  refine ⟨rfl, rfl, ?_⟩
  decide

/-- Claim C4, amended: when the input path has non-empty preceding
components and their full-existence canonicalization fails, the call
fails, the underlying cause is preserved in the error message, and the
error is tagged with the preceding components of the input path (the
input minus its final component), not with the full original input. -/
theorem c4_amended_prefix_tag (env : Env) (path current_dir : PathC) (e : String)
    (hne : path.dropLast ≠ [])
    (hfail : env.canonicalizeRaw path.dropLast = Except.error e) :
    semicanonicalize env path current_dir =
      Outcome.err (Error.new (display path.dropLast ++ ": " ++ e)) := by
  have hp : path ≠ [] := by
    intro hnil
    rw [hnil] at hne
    exact hne rfl
  obtain ⟨l, hl⟩ := Option.isSome_iff_exists.mp (List.getLast?_isSome.mpr hp)
  simp [semicanonicalize, hl, hne, canonicalize, hfail]

/-- Claim C9, counterexample: the internal-consistency branch reached by
resolving a lone parent-dir token against an empty current directory
yields a plain recoverable error value that is byte-for-byte identical to
an ordinary propagated canonicalization error produced on another input,
so no distinct error kind and no abort distinguishes them. -/
theorem c9_counterexample :
    semicanonicalize envIdOk [Component.parentDir] [] =
      Outcome.err (unknown_error [Component.parentDir]) ∧
    semicanonicalize envUnknownMsg
        [Component.normal "..", Component.normal "x"] [] =
      Outcome.err (unknown_error [Component.parentDir]) := by
  constructor <;> rfl

/-- Claim C9, amended: the eighth-type case of file_type is an abort
(panic), never a recoverable error, and thus distinguishable from
ordinary errors; the unknown-error branches of semicanonicalize return
the same message-only Error type as ordinary errors, carrying only a
fixed message text appended to the displayed path, so callers can
distinguish them at most by message content, not by a distinct kind. -/
theorem c9_amended (env : Env) (p path current_dir : PathC) (m : Metadata)
    (hm : symlink_metadata env p = Except.ok m) (hmn : m = mdNone)
    (hroot : path.getLast? = some Component.rootDir) (hne : path.dropLast ≠ [])
    (hc : ∃ c, canonicalize env path.dropLast = Except.ok c) :
    (∀ e, file_type env p ≠ Outcome.err e) ∧
    (∃ s, file_type env p = Outcome.panic s) ∧
    semicanonicalize env path current_dir = Outcome.err (unknown_error path) ∧
    (unknown_error path).message =
      display path ++ ": an unknown error occurred while processing this path" := by
  subst hmn
  refine ⟨?_, ?_, ?_, rfl⟩
  · intro e
    simp [file_type, hm, mdNone]
  · exact ⟨display p ++ ": file appears to exist but is an unknown type",
      by simp [file_type, hm, mdNone]⟩
  · obtain ⟨c, hcan⟩ := hc
    simp [semicanonicalize, hroot, hne, hcan]

/-- Claim C10: a single-component input path triggers no filesystem
access (the result is independent of the environment, since the empty
preceding part skips canonicalization) and, for the root marker,
current-dir, parent-dir and named-segment cases, always succeeds when the
current directory is a well-formed absolute path. -/
theorem c10_single_component (env env2 : Env) (c : Component) (current_dir : PathC)
    (habs : isValidAbs current_dir = true)
    (hc : ∀ s, c ≠ Component.prefixC s) :
    semicanonicalize env [c] current_dir = semicanonicalize env2 [c] current_dir ∧
    ∃ v, semicanonicalize env [c] current_dir = Outcome.ok v := by
  cases c with
  | rootDir => exact ⟨rfl, rootPath, rfl⟩
  | curDir => exact ⟨rfl, current_dir, rfl⟩
  | normal s => exact ⟨rfl, current_dir ++ [Component.normal s], rfl⟩
  | prefixC s => exact absurd rfl (hc s)
  | parentDir =>
    by_cases hcur : current_dir = rootPath
    · subst hcur
      exact ⟨rfl, rootPath, rfl⟩
    · obtain ⟨q, hq⟩ := parent_isSome_of_validAbs current_dir habs hcur
      constructor
      · simp [semicanonicalize, hcur, hq]
      · exact ⟨q, by simp [semicanonicalize, hcur, hq]⟩

/-- Witness for C1 at the concrete input a/b against the identity
environment. -/
theorem c1_witness :
    semicanonicalize envIdOk [Component.normal "a", Component.normal "b"] rootPath =
      Outcome.ok ([Component.normal "a"] ++ [Component.normal "b"]) :=
  (c1_named_last envIdOk [Component.normal "a", Component.normal "b"] rootPath "b"
    rfl).2 [Component.normal "a"] (by decide) rfl

/-- Witness for C2 at a concrete path whose metadata reports a directory. -/
theorem c2_witness :
    file_type (envMeta mdDir) [Component.normal "d"] =
      Outcome.ok (FileType.directory mdDir) :=
  (c2_classifier (envMeta mdDir) [Component.normal "d"] mdDir rfl).2.1 rfl rfl

/-- Witness for C3 at the concrete input of a lone parent-dir token with
the current directory /a. -/
theorem c3_witness :
    semicanonicalize envIdOk [Component.parentDir]
        [Component.rootDir, Component.normal "a"] = Outcome.ok [Component.rootDir] :=
  ((c3_parentdir_last envIdOk [Component.parentDir]
      [Component.rootDir, Component.normal "a"] rfl).2.2.2 rfl (by decide)).1
    [Component.rootDir] rfl

/-- Witness for the amended C4 at the concrete input a/b against an
environment whose canonicalization fails with the cause boom. -/
theorem c4_witness :
    semicanonicalize envBoom [Component.normal "a", Component.normal "b"] rootPath =
      Outcome.err (Error.new
        (display [Component.normal "a", Component.normal "b"].dropLast ++ ": " ++ "boom")) :=
  c4_amended_prefix_tag envBoom [Component.normal "a", Component.normal "b"] rootPath
    "boom" (by decide) rfl

/-- Witness for C5 at the concrete input consisting of the lone root
marker. -/
theorem c5_witness :
    semicanonicalize envIdOk [Component.rootDir] rootPath = Outcome.ok rootPath :=
  (c5_root_last envIdOk [Component.rootDir] rootPath rfl).1 rfl

/-- Witness for C6 at the concrete input consisting of the lone
current-dir token. -/
theorem c6_witness :
    semicanonicalize envIdOk [Component.curDir] rootPath = Outcome.ok rootPath :=
  (c6_curdir_last envIdOk [Component.curDir] rootPath rfl).1 rfl

/-- Witness for C8 at a concrete path whose metadata fails all seven
POSIX type tests. -/
theorem c8_witness :
    file_type (envMeta mdNone) [Component.normal "u"] =
      Outcome.panic (display [Component.normal "u"] ++
        ": file appears to exist but is an unknown type") :=
  ((c8_eighth_type (envMeta mdNone) [Component.normal "u"] mdNone rfl).1
    rfl rfl rfl rfl rfl rfl rfl).1

/-- Witness for the amended C9 at the concrete input a followed by a root
marker, which reaches the internal-consistency branch. -/
theorem c9_witness :
    semicanonicalize (envMeta mdNone)
        [Component.normal "a", Component.rootDir] rootPath =
      Outcome.err (unknown_error [Component.normal "a", Component.rootDir]) :=
  (c9_amended (envMeta mdNone) [Component.normal "z"]
    [Component.normal "a", Component.rootDir] rootPath mdNone rfl rfl rfl (by decide)
    ⟨[Component.normal "a"], rfl⟩).2.2.1

/-- Witness for C10 at a concrete single named segment resolved against
two different environments. -/
theorem c10_witness :
    semicanonicalize envBoom [Component.normal "n"] rootPath =
      semicanonicalize envIdOk [Component.normal "n"] rootPath :=
  (c10_single_component envBoom envIdOk (Component.normal "n") rootPath rfl
    (fun _ h => Component.noConfusion h)).1

end Fcp
